import Mathlib

/-!
Verification of the x402 payment-flow orchestrator
(`swarms/structs/x402_payment_agent.py`, `swarms/tools/x402_payment_tool.py`,
`x402/clients/base.py`).

The embedding models JSON values as an inductive type, the HTTP transport as
an oracle indexed by the number of calls issued so far (each call may either
raise a transport exception or return a status / parsed-JSON-or-text /
headers triple), and the agent's mutable attributes as an explicit state
record threaded through each operation.  The state additionally carries a
log of every HTTP request issued and two instrumentation counters
(`settlePosts`, `sigCalls`) that count POSTs to the settle endpoint and
invocations of the signature-based verify fallback; they change nothing
observable and only make trace properties directly statable.
-/

namespace X402

/-- A JSON value, as produced by `resp.json()` and carried inside the
result dictionaries of the Python code.  Numbers are modelled as integers:
the code performs no arithmetic on payload numbers. -/
inductive JValue where
  | null
  | bool (b : Bool)
  | int (n : Int)
  | str (s : String)
  | arr (xs : List JValue)
  | obj (fields : List (String × JValue))

deriving Inhabited

/-- A Python dictionary with string keys (the shape of every result object
the agent builds).  Insertion order is preserved, keys are unique. -/
abbrev Dict := List (String × JValue)

/-- `d.get(key)` on a dict: first matching key. -/
def dGet : Dict → String → Option JValue
  | [], _ => none
  | (k, v) :: rest, key => if k = key then some v else dGet rest key

/-- `d[key] = v`: replace in place if the key exists, else append
(Python dict assignment keeps the original insertion position). -/
def dSet : Dict → String → JValue → Dict
  | [], key, v => [(key, v)]
  | (k, w) :: rest, key, v =>
    if k = key then (k, v) :: rest else (k, w) :: dSet rest key v

/-- `d.setdefault(key, v)`. -/
def dSetDefault (d : Dict) (key : String) (v : JValue) : Dict :=
  match dGet d key with
  | some _ => d
  | none => d ++ [(key, v)]

/-- `d[k1][k2] = v` where `d[k1]` is an object (always the case at the
call sites: it was just materialised by `setdefault(k1, \x7b\x7d)`). -/
def dSetIn (d : Dict) (k1 k2 : String) (v : JValue) : Dict :=
  match dGet d k1 with
  | some (.obj inner) => dSet d k1 (.obj (dSet inner k2 v))
  | _ => d

/-- `d[k1][k2]` read-back used in theorem statements. -/
def dGet2 (d : Dict) (k1 k2 : String) : Option JValue :=
  match dGet d k1 with
  | some (.obj inner) => dGet inner k2
  | _ => none

/-- Field lookup on a JSON object (used only in theorem statements). -/
def jGetKey (j : JValue) (key : String) : Option JValue :=
  match j with
  | .obj fields => dGet fields key
  | _ => none

/-- Python `j.get(key, default)` on an arbitrary value: raises
`AttributeError` when `j` is not a dict. -/
def pyGet (j : JValue) (key : String) (default : JValue) : Except String JValue :=
  match j with
  | .obj fields => .ok ((dGet fields key).getD default)
  | _ => .error "AttributeError: object has no attribute get"

/-- Python truthiness of a JSON value. -/
def jTruthy : JValue → Bool
  | .null => false
  | .bool b => b
  | .int n => n ≠ 0
  | .str s => ¬ s.isEmpty
  | .arr xs => ¬ xs.isEmpty
  | .obj fs => ¬ fs.isEmpty

/-- Truthiness filter for optional strings: Python treats `None` and `""`
alike in `if x:` tests, so a present-but-empty string acts as absent. -/
def pyStrOpt : Option String → Option String
  | some s => if s.isEmpty then none else some s
  | none => none

/-- `s.lstrip('/')`. -/
def lstripSlash (s : String) : String :=
  (s.data.dropWhile (fun c => c = '/')).asString

/-- `s.rstrip('/')`. -/
def rstripSlash (s : String) : String :=
  ((s.data.reverse.dropWhile (fun c => c = '/')).reverse).asString

/-- `result.get("status_code", 0)`, read as an integer (every result object
the code builds stores an integer there). -/
def statusOf (d : Dict) : Int :=
  match dGet d "status_code" with
  | some (.int n) => n
  | _ => 0

/-- `200 <= status < 300`. -/
def is2xx (s : Int) : Prop := 200 ≤ s ∧ s < 300

instance (s : Int) : Decidable (is2xx s) := by
  unfold is2xx; infer_instance

/-- `dict(resp.headers)` embedded into a JSON object. -/
def headersJ (hs : List (String × String)) : JValue :=
  .obj (hs.map (fun kv => (kv.1, .str kv.2)))

/-- Outcome of one HTTP attempt: a transport-level exception, or a response
with a status code, an optional parsed JSON body (`none` means `resp.json()`
raised), the raw text, and headers. -/
inductive HttpOutcome where
  | exn (msg : String)
  | resp (status : Int) (json : Option JValue) (text : String)
      (headers : List (String × String))

/-- A logged HTTP request attempt. -/
structure Request where
  method : String
  url : String
  body : Option JValue
  timeout : Nat

/-- The network environment: the outcome of the `n`-th HTTP call the agent
issues (calls are strictly sequential). -/
def Transport := Nat → HttpOutcome

/-- Configuration resolved from environment variables / external
capabilities at construction time:
`MOCK_FACILITATOR_URL` (with its default), the merchant-address environment
variables, and the optional `eth_account` signing capability (given the
structured data and the normalized private key, it returns a hex signature
or raises). -/
structure Config where
  mockFacilitatorUrl : String
  payaiMerchantAddress : Option String
  addressEnv : Option String
  account : Option (JValue → Option String → Except String String)

/-- The agent's mutable attributes plus the instrumentation fields. -/
structure AgentState where
  facilitatorUrl : String
  walletPrivateKey : Option String
  network : Option String
  walletAddress : Option String
  facilitatorInfo : Dict
  callCount : Nat
  log : List Request
  settlePosts : Nat
  sigCalls : Nat

/-- `resp.json()` with the `{text: raw}` fallback on parse failure. -/
def jsonOr (j : Option JValue) (t : String) : JValue :=
  match j with
  | some v => v
  | none => .obj [("text", .str t)]

/-- `discover_facilitator`: GET `{base}/list`, cache and return
`{status_code, payload, headers}` or `{status_code: 0, error}`. -/
def discover_facilitator (τ : Transport) (st : AgentState) (timeout : Nat) :
    Dict × AgentState :=
  let url := rstripSlash st.facilitatorUrl ++ "/list"
  let req : Request := ⟨"GET", url, none, timeout⟩
  let st1 := { st with callCount := st.callCount + 1, log := st.log ++ [req] }
  let info : Dict :=
    match τ st.callCount with
    | .exn e => [("status_code", .int 0), ("error", .str e)]
    | .resp s j t hs =>
      [("status_code", .int s), ("payload", jsonOr j t), ("headers", headersJ hs)]
  (info, { st1 with facilitatorInfo := info })

/-- The JSON body `paid_api_call` sends: amount and currency, plus
metadata / from_address / network when truthy. -/
def paidBody (st : AgentState) (amount : Int) (currency : String)
    (metadata : Option JValue) : JValue :=
  .obj ([("amount", .int amount), ("currency", .str currency)]
    ++ (match metadata with | some m => [("metadata", m)] | none => [])
    ++ (match pyStrOpt st.walletAddress with
        | some w => [("from_address", .str w)] | none => [])
    ++ (match pyStrOpt st.network with
        | some n => [("network", .str n)] | none => []))

/-- `paid_api_call`: POST `{base}/{path}`; on transport failure return
`{status_code: 0, error}`; otherwise report the literal status, the parsed
body (or `{text: raw}`), and headers; on non-2xx attach the request body and
raw text, and when the discovery cache is empty also a fresh discovery. -/
def paid_api_call (τ : Transport) (st : AgentState) (path : String)
    (amount : Int) (currency : String) (metadata : Option JValue)
    (timeout : Nat) : Dict × AgentState :=
  let url := st.facilitatorUrl ++ "/" ++ lstripSlash path
  let body := paidBody st amount currency metadata
  let req : Request := ⟨"POST", url, some body, timeout⟩
  let st1 := { st with
    callCount := st.callCount + 1,
    log := st.log ++ [req],
    settlePosts := st.settlePosts + (if lstripSlash path = "settle" then 1 else 0) }
  match τ st.callCount with
  | .exn e => ([("status_code", .int 0), ("error", .str e)], st1)
  | .resp s j t hs =>
    let base : Dict :=
      [("status_code", .int s), ("payload", jsonOr j t), ("headers", headersJ hs)]
    if is2xx s then (base, st1)
    else
      let r1 := base ++ [("request_body", body), ("response_text", .str t)]
      if st1.facilitatorInfo.isEmpty then
        let pr := discover_facilitator τ st1 5
        (r1 ++ [("facilitator_info", .obj pr.1)], pr.2)
      else (r1, st1)

/-- The agent's attributes as set by `__init__` before the discovery probe
(line 32 applies `rstrip("/")` to the configured facilitator URL); the log,
cache and counters start empty. -/
def mkInitState (facilitatorUrl : String) (walletPrivateKey : Option String)
    (network : Option String) (walletAddress : Option String) : AgentState :=
  { facilitatorUrl := rstripSlash facilitatorUrl,
    walletPrivateKey := walletPrivateKey,
    network := network,
    walletAddress := walletAddress,
    facilitatorInfo := [],
    callCount := 0,
    log := [],
    settlePosts := 0,
    sigCalls := 0 }

/-- The discovery tail of `__init__`: probe `/list` with timeout 3; if the
probe reports `status_code == 0` or `>= 500`, substitute the configured mock
base URL and re-probe best-effort (the re-probe's outcome is discarded and
any failure is swallowed). -/
def initDiscovery (τ : Transport) (cfg : Config) (st : AgentState) : AgentState :=
  let pr := discover_facilitator τ st 3
  if statusOf pr.1 = 0 ∨ 500 ≤ statusOf pr.1 then
    let st2 := { pr.2 with facilitatorUrl := cfg.mockFacilitatorUrl }
    (discover_facilitator τ st2 5).2
  else pr.2

/-- The zero address used as the fixed `verifyingContract` and as the
fallback for absent wallet / merchant addresses. -/
def zeroAddr : String := "0x0000000000000000000000000000000000000000"

/-- The fixed EIP-712 domain object of `_build_eip712_intent`. -/
def eip712Domain : JValue :=
  .obj [("name", .str "x402 Payment"), ("version", .str "1"),
        ("chainId", .int 1), ("verifyingContract", .str zeroAddr)]

/-- The fixed `types` schema of `_build_eip712_intent`. -/
def eip712Types : JValue :=
  .obj [("EIP712Domain", .arr [
          .obj [("name", .str "name"), ("type", .str "string")],
          .obj [("name", .str "version"), ("type", .str "string")],
          .obj [("name", .str "chainId"), ("type", .str "uint256")],
          .obj [("name", .str "verifyingContract"), ("type", .str "address")]]),
        ("Payment", .arr [
          .obj [("name", .str "from"), ("type", .str "address")],
          .obj [("name", .str "to"), ("type", .str "address")],
          .obj [("name", .str "amount"), ("type", .str "string")],
          .obj [("name", .str "currency"), ("type", .str "string")],
          .obj [("name", .str "memo"), ("type", .str "string")],
          .obj [("name", .str "network"), ("type", .str "string")]])]

/-- `_build_eip712_intent`: deterministic construction of the structured
payment intent.  The recipient comes from the `PAYAI_MERCHANT_ADDRESS` /
`ADDRESS` environment chain (Python `or`, so empty strings fall through). -/
def build_eip712_intent (cfg : Config) (st : AgentState) (amount : Int)
    (currency : String) (memo : Option String) : JValue :=
  let toAddr :=
    match pyStrOpt cfg.payaiMerchantAddress with
    | some a => a
    | none => (pyStrOpt cfg.addressEnv).getD zeroAddr
  .obj [("types", eip712Types),
        ("domain", eip712Domain),
        ("primaryType", .str "Payment"),
        ("message", .obj [
          ("from", .str ((pyStrOpt st.walletAddress).getD zeroAddr)),
          ("to", .str toAddr),
          ("amount", .str (toString amount)),
          ("currency", .str currency),
          ("memo", .str ((pyStrOpt memo).getD "")),
          ("network", .str ((pyStrOpt st.network).getD ""))])]

/-- `if priv and not priv.startswith("0x"): priv = "0x" + priv`. -/
def normalizeKey (priv : Option String) : Option String :=
  match pyStrOpt priv with
  | none => priv
  | some p => if p.startsWith "0x" then some p else some ("0x" ++ p)

/-- `_sign_eip712`: `None` when the `eth_account` capability is absent;
otherwise encode-and-sign via the capability, any exception degrading to
`None`. -/
def sign_eip712 (cfg : Config) (st : AgentState) (structured : JValue) :
    Option String :=
  match cfg.account with
  | none => none
  | some signImpl =>
    match signImpl structured (normalizeKey st.walletPrivateKey) with
    | .ok sig => some sig
    | .error _ => none

/-- The request body of `verify_with_signature`:
`{eip712, signature (null when signing degraded), from_address, network}`. -/
def sigVerifyBody (cfg : Config) (st : AgentState) (amount : Int)
    (currency : String) (memo : Option String) : JValue :=
  let structured := build_eip712_intent cfg st amount currency memo
  .obj [("eip712", structured),
        ("signature", match sign_eip712 cfg st structured with
          | some s => .str s | none => .null),
        ("from_address", match st.walletAddress with
          | some w => .str w | none => .null),
        ("network", match st.network with | some n => .str n | none => .null)]

/-- `verify_with_signature`: build the intent, sign it (signature may be
absent), POST `{base}/verify` with
`{eip712, signature, from_address, network}`, and report the outcome with
the request body echoed. -/
def verify_with_signature (τ : Transport) (cfg : Config) (st : AgentState)
    (amount : Int) (currency : String) (memo : Option String) :
    Dict × AgentState :=
  let body : JValue := sigVerifyBody cfg st amount currency memo
  let url := rstripSlash st.facilitatorUrl ++ "/verify"
  let req : Request := ⟨"POST", url, some body, 30⟩
  let st1 := { st with
    callCount := st.callCount + 1,
    log := st.log ++ [req],
    sigCalls := st.sigCalls + 1 }
  match τ st.callCount with
  | .exn e =>
    ([("status_code", .int 0), ("error", .str e), ("request_body", body)], st1)
  | .resp s j t hs =>
    ([("status_code", .int s), ("payload", jsonOr j t), ("headers", headersJ hs),
      ("request_body", body)], st1)

/-- `{"memo": memo} if memo else None`. -/
def metadataOf (memo : Option String) : Option JValue :=
  match pyStrOpt memo with
  | some m => some (.obj [("memo", .str m)])
  | none => none

/-- `create_payment_session`: POST `/create_payment`; on 404 retry `/verify`
with the same payload (promoting a 2xx verify to a "verified-as-create"
result); on 400 attach diagnostics and a fresh discovery to the create
result after an extra (discarded) `/verify` attempt.  The `Except` value
models the `AttributeError` the 404 branch raises when the 2xx verify
payload is not a JSON object (`.get` on a non-dict). -/
def create_payment_session (τ : Transport) (st : AgentState) (amount : Int)
    (currency : String) (memo : Option String) :
    Except String Dict × AgentState :=
  let metadata := metadataOf memo
  let cp := paid_api_call τ st "create_payment" amount currency metadata 30
  let create_res := cp.1
  let status := statusOf create_res
  if status = 404 then
    let vp := paid_api_call τ cp.2 "verify" amount currency metadata 30
    let verify_res := vp.1
    if is2xx (statusOf verify_res) then
      let payloadD := (dGet verify_res "payload").getD (.obj [])
      match pyGet payloadD "id" .null with
      | .error e => (.error e, vp.2)
      | .ok idv =>
        match pyGet payloadD "received" ((dGet verify_res "payload").getD .null) with
        | .error e => (.error e, vp.2)
        | .ok recv =>
          (.ok [("status_code", (dGet verify_res "status_code").getD .null),
                ("payload", .obj [
                  ("id", if jTruthy idv then idv
                         else (dGet verify_res "payload").getD .null),
                  ("status", .str "verified-as-create"),
                  ("received", recv)]),
                ("headers", (dGet verify_res "headers").getD .null)], vp.2)
    else (.ok verify_res, vp.2)
  else if status = 400 then
    let vp := paid_api_call τ cp.2 "verify" amount currency metadata 30
    let cr1 := dSetDefault create_res "diagnostics" (.obj [])
    let cr2 := dSetIn cr1 "diagnostics" "note"
      (.str "create_payment returned 400; see response_text and request_body")
    let dp := discover_facilitator τ vp.2 5
    let cr3 := dSetIn cr2 "diagnostics" "facilitator_list" (.obj dp.1)
    (.ok cr3, dp.2)
  else (.ok create_res, cp.2)

/-- The `except` handler of `complete_payment_flow`'s create stage:
an exception becomes `{status_code: 0, error}`. -/
def recoverRes (r : Except String Dict) : Dict :=
  match r with
  | .ok d => d
  | .error e => [("status_code", .int 0), ("error", .str e)]

/-- The verify stage of `complete_payment_flow`, given the recorded create
result: plain verify on a 2xx create; on a 400/404 create, plain verify
then - if that is not 2xx - the signature fallback (whose 2xx result
supersedes, and whose failure is attached as diagnostics); otherwise the
skip sentinel. -/
def verifyPhase (τ : Transport) (cfg : Config) (st : AgentState)
    (amount : Int) (currency : String) (memo : Option String) (timeout : Nat)
    (createRes : Dict) : Dict × AgentState :=
  let status := statusOf createRes
  if is2xx status then
    paid_api_call τ st "verify" amount currency (metadataOf memo) timeout
  else if status = 400 ∨ status = 404 then
    let vp := paid_api_call τ st "verify" amount currency (metadataOf memo) timeout
    let v := vp.1
    if ¬ is2xx (statusOf v) then
      let sp := verify_with_signature τ cfg vp.2 amount currency memo
      let sig := sp.1
      if is2xx (statusOf sig) then (sig, sp.2)
      else
        let v1 := dSetDefault v "diagnostics" (.obj [])
        let v2 := dSetIn v1 "diagnostics" "create_response" (.obj createRes)
        (dSetIn v2 "diagnostics" "signature_attempt" (.obj sig), sp.2)
    else
      let v1 := dSetDefault v "diagnostics" (.obj [])
      (dSetIn v1 "diagnostics" "create_response" (.obj createRes), vp.2)
  else ([("status_code", .int 0), ("error", .str "create failed; skipping verify")], st)

/-- The settle stage of `complete_payment_flow`, given the recorded verify
result: settle on a 2xx verify; settle-as-last-resort (with the verify
result under diagnostics) on a 400/404 verify; otherwise the skip
sentinel. -/
def settlePhase (τ : Transport) (st : AgentState)
    (amount : Int) (currency : String) (memo : Option String) (timeout : Nat)
    (verifyRes : Dict) : Dict × AgentState :=
  let vstatus := statusOf verifyRes
  if is2xx vstatus then
    paid_api_call τ st "settle" amount currency (metadataOf memo) timeout
  else if vstatus = 400 ∨ vstatus = 404 then
    let sp := paid_api_call τ st "settle" amount currency (metadataOf memo) timeout
    let s1 := dSetDefault sp.1 "diagnostics" (.obj [])
    (dSetIn s1 "diagnostics" "verify_response" (.obj verifyRes), sp.2)
  else ([("status_code", .int 0), ("error", .str "verify failed; skipping settle")], st)

/-- `complete_payment_flow`: create, verify, settle, each stage's result
recorded under its key; the create stage's exceptions are caught and
encoded as `{status_code: 0, error}` (the verify and settle stages cannot
raise: every operation they call is total in this model, mirroring the
code's own catch-all handlers). -/
def complete_payment_flow (τ : Transport) (cfg : Config) (st : AgentState)
    (amount : Int) (currency : String) (memo : Option String) (timeout : Nat) :
    Dict × AgentState :=
  let cp := create_payment_session τ st amount currency memo
  let createRes := recoverRes cp.1
  let vp := verifyPhase τ cfg cp.2 amount currency memo timeout createRes
  let sp := settlePhase τ vp.2 amount currency memo timeout vp.1
  ([("create", .obj createRes), ("verify", .obj vp.1),
    ("settle", .obj sp.1)], sp.2)

/-- `decode_x_payment_response` (`x402/clients/base.py`): try a JSON parse
of the header value (`json.loads`, supplied as an oracle for the external
library), falling back to `{"transaction": raw}`. -/
def decode_x_payment_response (jsonLoads : String → Option JValue)
    (headerValue : String) : JValue :=
  match jsonLoads headerValue with
  | some v => v
  | none => .obj [("transaction", .str headerValue)]

/-- Configuration of the standalone `x402_payment_tool`: the mock fallback
URL and the wallet address derived from the private key (the
`_derive_address_from_private_key` helper, an external-library call that
yields `None` on any failure). -/
structure ToolConfig where
  mockFacilitatorUrl : String
  derivedAddress : Option String

/-- The JSON payload `x402_payment_tool` builds. -/
def toolPayload (tcfg : ToolConfig) (amount : Int) (currency : String)
    (memo : Option String) (network : Option String) : JValue :=
  .obj ([("amount", .int amount), ("currency", .str currency)]
    ++ (match pyStrOpt memo with
        | some m => [("metadata", .obj [("memo", .str m)])] | none => [])
    ++ (match pyStrOpt network with
        | some n => [("network", .str n)] | none => [])
    ++ (match pyStrOpt tcfg.derivedAddress with
        | some a => [("from_address", .str a)] | none => []))

/-- `x402_payment_tool`: probe `/list` (call 0; transport failure or a
status of 0 / >= 500 switches to the mock URL), POST `/create_payment`
(call 1), and on a 404 fall back to POST `/verify` (call 2).  Transport
failures return `{status_code: 0, error, request_body}`. -/
def x402_payment_tool (τ : Transport) (tcfg : ToolConfig)
    (facilitatorUrl : String) (amount : Int) (currency : String)
    (memo : Option String) (network : Option String) : Dict :=
  let payload := toolPayload tcfg amount currency memo network
  -- the probe decides which base URL the later POSTs target; the transport
  -- oracle is addressed by call index, so the URL itself is not consumed
  let _url :=
    match τ 0 with
    | .exn _ => tcfg.mockFacilitatorUrl
    | .resp s _ _ _ =>
      if s = 0 ∨ 500 ≤ s then tcfg.mockFacilitatorUrl else facilitatorUrl
  match τ 1 with
  | .exn e => [("status_code", .int 0), ("error", .str e), ("request_body", payload)]
  | .resp s j t hs =>
    let result : Dict :=
      [("status_code", .int s), ("body", jsonOr j t), ("headers", headersJ hs)]
    if s = 404 then
      match τ 2 with
      | .exn e =>
        [("status_code", .int 0), ("error", .str e), ("request_body", payload)]
      | .resp s2 j2 t2 hs2 =>
        [("status_code", .int s2), ("body", jsonOr j2 t2), ("headers", headersJ hs2)]
    else result

/-- A result object that records a status code. -/
def hasStatus (d : Dict) : Prop := (dGet d "status_code").isSome

/-- The configuration-like attributes no operation ever rewrites after
initialization. -/
def corePreserved (st st' : AgentState) : Prop :=
  st'.facilitatorUrl = st.facilitatorUrl ∧
  st'.walletPrivateKey = st.walletPrivateKey ∧
  st'.network = st.network ∧
  st'.walletAddress = st.walletAddress

/-- A request built from the base URL `u` (directly or after `rstrip`):
its URL is the base followed by a `/`-leading path. -/
def sameBase (u : String) (r : Request) : Prop :=
  ∃ p, (r.url = u ++ ("/" ++ p) ∨ r.url = rstripSlash u ++ ("/" ++ p))

/-- Between two states, every logged request either predates the first
state or targets the base URL `u`. -/
def logFrom (u : String) (st st' : AgentState) : Prop :=
  ∀ r ∈ st'.log, r ∈ st.log ∨ sameBase u r

/-- Combined invariant for composing operations: the configuration
attributes survive and every new request targets the session's base URL. -/
def sameEnvLog (st st' : AgentState) : Prop :=
  corePreserved st st' ∧ logFrom st.facilitatorUrl st st'

/-- The create stage result a `complete_payment_flow` run records. -/
def flowCreateD (τ : Transport) (st : AgentState) (a : Int) (c : String)
    (m : Option String) : Dict :=
  recoverRes (create_payment_session τ st a c m).1

/-- The state after the create stage of a run. -/
def afterCreate (τ : Transport) (st : AgentState) (a : Int) (c : String)
    (m : Option String) : AgentState :=
  (create_payment_session τ st a c m).2

/-- The verify stage result a run records. -/
def flowVerifyD (τ : Transport) (cfg : Config) (st : AgentState) (a : Int)
    (c : String) (m : Option String) (t : Nat) : Dict :=
  (verifyPhase τ cfg (afterCreate τ st a c m) a c m t
    (flowCreateD τ st a c m)).1

/-- The state after the verify stage of a run. -/
def afterVerify (τ : Transport) (cfg : Config) (st : AgentState) (a : Int)
    (c : String) (m : Option String) (t : Nat) : AgentState :=
  (verifyPhase τ cfg (afterCreate τ st a c m) a c m t
    (flowCreateD τ st a c m)).2

/-- The settle stage result a run records. -/
def flowSettleD (τ : Transport) (cfg : Config) (st : AgentState) (a : Int)
    (c : String) (m : Option String) (t : Nat) : Dict :=
  (settlePhase τ (afterVerify τ cfg st a c m t) a c m t
    (flowVerifyD τ cfg st a c m t)).1

/-- The final state of a run. -/
def afterSettle (τ : Transport) (cfg : Config) (st : AgentState) (a : Int)
    (c : String) (m : Option String) (t : Nat) : AgentState :=
  (settlePhase τ (afterVerify τ cfg st a c m t) a c m t
    (flowVerifyD τ cfg st a c m t)).2

/-- A fresh agent pointed at a primary facilitator, no wallet, no network. -/
def stBase : AgentState := mkInitState "http://facilitator.example" none none none

/-- Configuration with no signing capability and the default mock URL. -/
def cfgPlain : Config := ⟨"http://127.0.0.1:8000", none, none, none⟩

/-- A transport on which every call raises (facilitator unreachable). -/
def τdown : Transport := fun _ => .exn "connection refused"

/-- Transport: create 200, verify 500, nothing else reachable. -/
def τskip : Transport := fun n =>
  if n = 0 then .resp 200 (some (.obj [("id", .str "p1")])) "" []
  else if n = 1 then .resp 500 (some (.obj [("err", .str "boom")])) "boom" []
  else .exn "unreachable"

/-- Transport: create 200, verify 404, discovery and settle 200. -/
def τc10 : Transport := fun n =>
  if n = 0 then .resp 200 (some (.obj [("id", .str "p1")])) "" []
  else if n = 1 then .resp 404 (some (.obj [("err", .str "nf")])) "nf" []
  else .resp 200 (some (.obj [("ok", .bool true)])) "" []

/-- The plain verify call the fallback branch issues (after a 400/404
create stage). -/
def fallbackVerify (τ : Transport) (st : AgentState) (a : Int) (c : String)
    (m : Option String) (t : Nat) : Dict × AgentState :=
  paid_api_call τ (afterCreate τ st a c m) "verify" a c (metadataOf m) t

/-- The signature-based verify attempt the fallback branch then issues. -/
def fallbackSig (τ : Transport) (cfg : Config) (st : AgentState) (a : Int)
    (c : String) (m : Option String) (t : Nat) : Dict × AgentState :=
  verify_with_signature τ cfg (fallbackVerify τ st a c m t).2 a c m

/-- Transport: create 200, verify 400, everything else 200. -/
def τc2 : Transport := fun n =>
  if n = 0 then .resp 200 (some (.obj [("id", .str "p1")])) "" []
  else if n = 1 then .resp 400 (some (.obj [("err", .str "bad")])) "bad" []
  else .resp 200 (some (.obj [])) "" []

/-- Configuration with a functional signing capability. -/
def cfgSign : Config :=
  ⟨"http://127.0.0.1:8000", none, none, some (fun _ _ => .ok "deadbeef")⟩

/-- An agent with a wallet key and derived address. -/
def stWallet : AgentState :=
  mkInitState "http://facilitator.example" (some "ab") none (some "0xWALLET")

/-- Transport on which the facilitator answers 404 to everything. -/
def τ404 : Transport := fun _ =>
  .resp 404 (some (.obj [("err", .str "nf")])) "nf" []

/-- The create POST `create_payment_session` always starts with. -/
def createCall (τ : Transport) (st : AgentState) (a : Int) (c : String)
    (m : Option String) : Dict × AgentState :=
  paid_api_call τ st "create_payment" a c (metadataOf m) 30

/-- The `/verify` POST the 404 branch of `create_payment_session` issues
with the same payload. -/
def createFallbackVerify (τ : Transport) (st : AgentState) (a : Int)
    (c : String) (m : Option String) : Dict × AgentState :=
  paid_api_call τ (createCall τ st a c m).2 "verify" a c (metadataOf m) 30

/-- Transport: 404 create, a reachable `/list`, then a 2xx verify whose
JSON body is a bare string rather than an object. -/
def τc4 : Transport := fun n =>
  if n = 0 then .resp 404 (some (.obj [("err", .str "nf")])) "nf" []
  else if n = 1 then .resp 200 (some (.obj [("kinds", .arr [])])) "" []
  else .resp 200 (some (.str "ok")) "" []

/-- Transport: 404 create, reachable `/list`, then a 2xx verify whose body
is a JSON object. -/
def τc4w : Transport := fun n =>
  if n = 0 then .resp 404 (some (.obj [("err", .str "nf")])) "nf" []
  else if n = 1 then .resp 200 (some (.obj [("kinds", .arr [])])) "" []
  else .resp 200 (some (.obj [("id", .str "abc"), ("received", .int 5)])) "" []

/-- Transport: the primary probe raises; everything afterwards succeeds. -/
def τc5 : Transport := fun n =>
  if n = 0 then .exn "connection refused"
  else .resp 200 (some (.obj [("kinds", .arr [])])) "" []

/-! ### Lemmas and claim theorems -/

theorem dGet_append_left {d1 d2 : Dict} {k : String} {v : JValue}
    (h : dGet d1 k = some v) : dGet (d1 ++ d2) k = some v := by
  induction d1 with
  | nil => simp [dGet] at h
  | cons kv rest ih =>
    obtain ⟨k', v'⟩ := kv
    by_cases hk : k' = k
    · subst hk; simp [dGet] at h ⊢; exact h
    · simp [dGet, hk] at h ⊢; exact ih h

theorem dGet_append_right {d1 d2 : Dict} {k : String}
    (h : dGet d1 k = none) : dGet (d1 ++ d2) k = dGet d2 k := by
  induction d1 with
  | nil => simp
  | cons kv rest ih =>
    obtain ⟨k', v'⟩ := kv
    by_cases hk : k' = k
    · subst hk; simp [dGet] at h
    · simp [dGet, hk] at h ⊢; exact ih h

theorem dGet_dSet_self (d : Dict) (k : String) (v : JValue) :
    dGet (dSet d k v) k = some v := by
  induction d with
  | nil => simp [dSet, dGet]
  | cons kv rest ih =>
    obtain ⟨k', v'⟩ := kv
    by_cases hk : k' = k
    · subst hk; simp [dSet, dGet]
    · simp [dSet, dGet, hk]; exact ih

theorem dGet_dSet_ne (d : Dict) {k k' : String} (v : JValue) (h : k ≠ k') :
    dGet (dSet d k v) k' = dGet d k' := by
  induction d with
  | nil => simp [dSet, dGet, h]
  | cons kv rest ih =>
    obtain ⟨k1, v1⟩ := kv
    by_cases hk : k1 = k
    · subst hk; simp [dSet, dGet, h]
    · simp [dSet, dGet, hk]; rw [ih]

theorem dGet_dSetDefault_ne (d : Dict) {k k' : String} (v : JValue)
    (h : k ≠ k') : dGet (dSetDefault d k v) k' = dGet d k' := by
  unfold dSetDefault
  cases hg : dGet d k with
  | some w => rfl
  | none =>
    cases hg' : dGet d k' with
    | some w => exact dGet_append_left hg'
    | none => rw [dGet_append_right hg']; simp [dGet, h]

theorem dGet_dSetIn_ne (d : Dict) {k1 k' : String} (k2 : String) (v : JValue)
    (h : k1 ≠ k') : dGet (dSetIn d k1 k2 v) k' = dGet d k' := by
  unfold dSetIn
  cases hg : dGet d k1 with
  | some w =>
    cases w <;> first
      | rfl
      | exact dGet_dSet_ne _ _ h
  | none => rfl

theorem dGet_dSetDefault_diag_status (d : Dict) (v : JValue) :
    statusOf (dSetDefault d "diagnostics" v) = statusOf d := by
  unfold statusOf
  rw [dGet_dSetDefault_ne]
  decide

theorem statusOf_dSetIn_diag (d : Dict) (k2 : String) (v : JValue) :
    statusOf (dSetIn d "diagnostics" k2 v) = statusOf d := by
  unfold statusOf
  rw [dGet_dSetIn_ne]
  decide

/-- After `setdefault("diagnostics", obj)` the key holds an object. -/
theorem dSetDefault_diag_obj (d : Dict) (h : dGet d "diagnostics" = none) :
    dGet (dSetDefault d "diagnostics" (.obj [])) "diagnostics" =
      some (.obj []) := by
  unfold dSetDefault
  rw [h, dGet_append_right h]
  simp [dGet]

theorem dGet_dSetIn_self_obj (d : Dict) (k1 k2 : String) (v : JValue)
    {inner : List (String × JValue)} (h : dGet d k1 = some (.obj inner)) :
    dGet (dSetIn d k1 k2 v) k1 = some (.obj (dSet inner k2 v)) := by
  unfold dSetIn
  rw [h]
  exact dGet_dSet_self d k1 _

theorem dGet2_dSetIn_self (d : Dict) (k1 k2 : String) (v : JValue)
    {inner : List (String × JValue)} (h : dGet d k1 = some (.obj inner)) :
    dGet2 (dSetIn d k1 k2 v) k1 k2 = some v := by
  unfold dGet2
  rw [dGet_dSetIn_self_obj d k1 k2 v h]
  exact dGet_dSet_self inner k2 v

theorem hasStatus_dSetDefault_diag (d : Dict) (v : JValue)
    (h : hasStatus d) : hasStatus (dSetDefault d "diagnostics" v) := by
  unfold hasStatus at h ⊢
  rw [dGet_dSetDefault_ne]
  · exact h
  · decide

theorem hasStatus_dSetIn_diag (d : Dict) (k2 : String) (v : JValue)
    (h : hasStatus d) : hasStatus (dSetIn d "diagnostics" k2 v) := by
  unfold hasStatus at h ⊢
  rw [dGet_dSetIn_ne]
  · exact h
  · decide

theorem corePreserved_refl (st : AgentState) : corePreserved st st :=
  ⟨rfl, rfl, rfl, rfl⟩

theorem corePreserved_trans {s1 s2 s3 : AgentState}
    (h12 : corePreserved s1 s2) (h23 : corePreserved s2 s3) :
    corePreserved s1 s3 := by
  obtain ⟨a, b, c, d⟩ := h12
  obtain ⟨a', b', c', d'⟩ := h23
  exact ⟨a'.trans a, b'.trans b, c'.trans c, d'.trans d⟩

theorem discover_state (τ : Transport) (st : AgentState) (t : Nat) :
    corePreserved st (discover_facilitator τ st t).2 ∧
    (discover_facilitator τ st t).2.sigCalls = st.sigCalls ∧
    (discover_facilitator τ st t).2.settlePosts = st.settlePosts ∧
    (discover_facilitator τ st t).2.callCount = st.callCount + 1 ∧
    (discover_facilitator τ st t).2.log =
      st.log ++ [⟨"GET", rstripSlash st.facilitatorUrl ++ "/list", none, t⟩] := by
  unfold discover_facilitator corePreserved
  cases τ st.callCount <;> simp

theorem paid_state (τ : Transport) (st : AgentState) (path : String)
    (a : Int) (c : String) (meta : Option JValue) (t : Nat) :
    corePreserved st (paid_api_call τ st path a c meta t).2 ∧
    (paid_api_call τ st path a c meta t).2.sigCalls = st.sigCalls ∧
    (paid_api_call τ st path a c meta t).2.settlePosts =
      st.settlePosts + (if lstripSlash path = "settle" then 1 else 0) := by
  unfold paid_api_call
  cases h : τ st.callCount with
  | exn e => simp [corePreserved]
  | resp s j tx hs =>
    by_cases h2 : is2xx s
    · simp [h2, corePreserved]
    · simp only [h2, if_false]
      by_cases hc : ({ st with
          callCount := st.callCount + 1,
          log := st.log ++ [⟨"POST", st.facilitatorUrl ++ "/" ++ lstripSlash path,
            some (paidBody st a c meta), t⟩],
          settlePosts := st.settlePosts +
            (if lstripSlash path = "settle" then 1 else 0) } :
          AgentState).facilitatorInfo.isEmpty
      · obtain ⟨⟨u1, u2, u3, u4⟩, sg, sp, _, _⟩ := discover_state τ
          { st with
            callCount := st.callCount + 1,
            log := st.log ++ [⟨"POST", st.facilitatorUrl ++ "/" ++ lstripSlash path,
              some (paidBody st a c meta), t⟩],
            settlePosts := st.settlePosts +
              (if lstripSlash path = "settle" then 1 else 0) } 5
        simp_all [corePreserved]
      · simp [hc, corePreserved]

/-- The exact requests `paid_api_call` issues: its own POST, possibly
followed by the discovery probe that fills an empty cache. -/
theorem paid_log (τ : Transport) (st : AgentState) (path : String)
    (a : Int) (c : String) (meta : Option JValue) (t : Nat) :
    (paid_api_call τ st path a c meta t).2.log =
      st.log ++ [⟨"POST", st.facilitatorUrl ++ "/" ++ lstripSlash path,
        some (paidBody st a c meta), t⟩] ∨
    (paid_api_call τ st path a c meta t).2.log =
      st.log ++ [⟨"POST", st.facilitatorUrl ++ "/" ++ lstripSlash path,
        some (paidBody st a c meta), t⟩,
        ⟨"GET", rstripSlash st.facilitatorUrl ++ "/list", none, 5⟩] := by
  unfold paid_api_call
  cases h : τ st.callCount with
  | exn e => simp
  | resp s j tx hs =>
    by_cases h2 : is2xx s
    · simp [h2]
    · simp only [h2, if_false]
      split
      · obtain ⟨⟨u1, _, _, _⟩, _, _, _, hl⟩ := discover_state τ
          { st with
            callCount := st.callCount + 1,
            log := st.log ++ [⟨"POST", st.facilitatorUrl ++ "/" ++ lstripSlash path,
              some (paidBody st a c meta), t⟩],
            settlePosts := st.settlePosts +
              (if lstripSlash path = "settle" then 1 else 0) } 5
        simp_all
      · simp

/-- Transport failure in `paid_api_call` yields exactly the
`{status_code: 0, error}` sentinel. -/
theorem paid_exn (τ : Transport) (st : AgentState) (path : String)
    (a : Int) (c : String) (meta : Option JValue) (t : Nat) (e : String)
    (h : τ st.callCount = .exn e) :
    (paid_api_call τ st path a c meta t).1 =
      [("status_code", .int 0), ("error", .str e)] := by
  unfold paid_api_call
  rw [h]

/-- An HTTP response in `paid_api_call` is reported with its literal status
code, its parsed-or-text payload and headers, and no diagnostics key. -/
theorem paid_resp (τ : Transport) (st : AgentState) (path : String)
    (a : Int) (c : String) (meta : Option JValue) (t : Nat)
    (s : Int) (j : Option JValue) (tx : String) (hs : List (String × String))
    (h : τ st.callCount = .resp s j tx hs) :
    dGet (paid_api_call τ st path a c meta t).1 "status_code" = some (.int s) ∧
    dGet (paid_api_call τ st path a c meta t).1 "payload" = some (jsonOr j tx) ∧
    dGet (paid_api_call τ st path a c meta t).1 "headers" = some (headersJ hs) ∧
    dGet (paid_api_call τ st path a c meta t).1 "diagnostics" = none := by
  unfold paid_api_call
  rw [h]
  by_cases h2 : is2xx s
  · simp [h2, dGet]
  · simp only [h2, if_false]
    split <;> refine ⟨?_, ?_, ?_, ?_⟩ <;>
      first
        | exact dGet_append_left (by simp [dGet])
        | (rw [dGet_append_right (by simp [dGet])]; simp [dGet])

/-- Every `paid_api_call` result records a status code and never a
diagnostics key. -/
theorem paid_shape (τ : Transport) (st : AgentState) (path : String)
    (a : Int) (c : String) (meta : Option JValue) (t : Nat) :
    hasStatus (paid_api_call τ st path a c meta t).1 ∧
    dGet (paid_api_call τ st path a c meta t).1 "diagnostics" = none := by
  cases h : τ st.callCount with
  | exn e => rw [paid_exn τ st path a c meta t e h]; exact ⟨rfl, rfl⟩
  | resp s j tx hs =>
    obtain ⟨h1, _, _, h4⟩ := paid_resp τ st path a c meta t s j tx hs h
    exact ⟨by unfold hasStatus; rw [h1]; rfl, h4⟩

/-- `statusOf` a `paid_api_call` response is the literal HTTP status. -/
theorem paid_statusOf (τ : Transport) (st : AgentState) (path : String)
    (a : Int) (c : String) (meta : Option JValue) (t : Nat)
    (s : Int) (j : Option JValue) (tx : String) (hs : List (String × String))
    (h : τ st.callCount = .resp s j tx hs) :
    statusOf (paid_api_call τ st path a c meta t).1 = s := by
  obtain ⟨h1, _, _, _⟩ := paid_resp τ st path a c meta t s j tx hs h
  unfold statusOf
  rw [h1]

theorem sig_state (τ : Transport) (cfg : Config) (st : AgentState)
    (a : Int) (c : String) (m : Option String) :
    corePreserved st (verify_with_signature τ cfg st a c m).2 ∧
    (verify_with_signature τ cfg st a c m).2.sigCalls = st.sigCalls + 1 ∧
    (verify_with_signature τ cfg st a c m).2.settlePosts = st.settlePosts ∧
    (verify_with_signature τ cfg st a c m).2.log =
      st.log ++ [⟨"POST", rstripSlash st.facilitatorUrl ++ "/verify",
        some (sigVerifyBody cfg st a c m), 30⟩] := by
  unfold verify_with_signature corePreserved
  cases τ st.callCount <;> simp

/-- Every `verify_with_signature` result records a status code and never a
diagnostics key. -/
theorem sig_shape (τ : Transport) (cfg : Config) (st : AgentState)
    (a : Int) (c : String) (m : Option String) :
    hasStatus (verify_with_signature τ cfg st a c m).1 ∧
    dGet (verify_with_signature τ cfg st a c m).1 "diagnostics" = none := by
  unfold verify_with_signature hasStatus
  cases τ st.callCount <;> simp [dGet]

theorem logFrom_refl (u : String) (st : AgentState) : logFrom u st st :=
  fun _ hr => Or.inl hr

theorem logFrom_trans {u : String} {s1 s2 s3 : AgentState}
    (h12 : logFrom u s1 s2) (h23 : logFrom u s2 s3) : logFrom u s1 s3 := by
  intro r hr
  rcases h23 r hr with h | h
  · exact h12 r h
  · exact Or.inr h

theorem discover_logFrom (τ : Transport) (st : AgentState) (t : Nat) :
    logFrom st.facilitatorUrl st (discover_facilitator τ st t).2 := by
  obtain ⟨_, _, _, _, hl⟩ := discover_state τ st t
  intro r hr
  rw [hl] at hr
  rcases List.mem_append.mp hr with h | h
  · exact Or.inl h
  · simp only [List.mem_singleton] at h
    subst h
    exact Or.inr ⟨"list", Or.inr rfl⟩

theorem paid_logFrom (τ : Transport) (st : AgentState) (path : String)
    (a : Int) (c : String) (meta : Option JValue) (t : Nat) :
    logFrom st.facilitatorUrl st (paid_api_call τ st path a c meta t).2 := by
  intro r hr
  rcases paid_log τ st path a c meta t with hl | hl <;> rw [hl] at hr <;>
    rcases List.mem_append.mp hr with h | h
  · exact Or.inl h
  · simp only [List.mem_singleton] at h
    subst h
    exact Or.inr ⟨lstripSlash path, Or.inl (String.append_assoc _ _ _)⟩
  · exact Or.inl h
  · simp only [List.mem_cons, List.mem_singleton, List.not_mem_nil, or_false] at h
    rcases h with h | h <;> subst h
    · exact Or.inr ⟨lstripSlash path, Or.inl (String.append_assoc _ _ _)⟩
    · exact Or.inr ⟨"list", Or.inr rfl⟩

theorem sig_logFrom (τ : Transport) (cfg : Config) (st : AgentState)
    (a : Int) (c : String) (m : Option String) :
    logFrom st.facilitatorUrl st (verify_with_signature τ cfg st a c m).2 := by
  obtain ⟨_, _, _, hl⟩ := sig_state τ cfg st a c m
  intro r hr
  rw [hl] at hr
  rcases List.mem_append.mp hr with h | h
  · exact Or.inl h
  · simp only [List.mem_singleton] at h
    subst h
    exact Or.inr ⟨"verify", Or.inr rfl⟩

theorem sameEnvLog_refl (st : AgentState) : sameEnvLog st st :=
  ⟨corePreserved_refl st, logFrom_refl _ st⟩

theorem sameEnvLog_trans {s1 s2 s3 : AgentState}
    (h12 : sameEnvLog s1 s2) (h23 : sameEnvLog s2 s3) : sameEnvLog s1 s3 := by
  obtain ⟨c12, l12⟩ := h12
  obtain ⟨c23, l23⟩ := h23
  refine ⟨corePreserved_trans c12 c23, logFrom_trans l12 ?_⟩
  rwa [c12.1] at l23

theorem paid_sameEnvLog (τ : Transport) (st : AgentState) (path : String)
    (a : Int) (c : String) (meta : Option JValue) (t : Nat) :
    sameEnvLog st (paid_api_call τ st path a c meta t).2 :=
  ⟨(paid_state τ st path a c meta t).1, paid_logFrom τ st path a c meta t⟩

theorem discover_sameEnvLog (τ : Transport) (st : AgentState) (t : Nat) :
    sameEnvLog st (discover_facilitator τ st t).2 :=
  ⟨(discover_state τ st t).1, discover_logFrom τ st t⟩

theorem sig_sameEnvLog (τ : Transport) (cfg : Config) (st : AgentState)
    (a : Int) (c : String) (m : Option String) :
    sameEnvLog st (verify_with_signature τ cfg st a c m).2 :=
  ⟨(sig_state τ cfg st a c m).1, sig_logFrom τ cfg st a c m⟩

theorem settleBump_create :
    (if lstripSlash "create_payment" = "settle" then (1:Nat) else 0) = 0 := by
  decide

theorem settleBump_verify :
    (if lstripSlash "verify" = "settle" then (1:Nat) else 0) = 0 := by
  decide

theorem settleBump_settle :
    (if lstripSlash "settle" = "settle" then (1:Nat) else 0) = 1 := by
  decide

/-- `create_payment_session` preserves the environment attributes, targets
only the session base URL, touches neither counter, and is exception-free
at the transport layer. -/
theorem session_state (τ : Transport) (st : AgentState) (a : Int)
    (c : String) (m : Option String) :
    sameEnvLog st (create_payment_session τ st a c m).2 ∧
    (create_payment_session τ st a c m).2.sigCalls = st.sigCalls ∧
    (create_payment_session τ st a c m).2.settlePosts = st.settlePosts := by
  have P1 := paid_state τ st "create_payment" a c (metadataOf m) 30
  have E1 := paid_sameEnvLog τ st "create_payment" a c (metadataOf m) 30
  set st1 := (paid_api_call τ st "create_payment" a c (metadataOf m) 30).2 with hst1
  have P2 := paid_state τ st1 "verify" a c (metadataOf m) 30
  have E2 := paid_sameEnvLog τ st1 "verify" a c (metadataOf m) 30
  set st2 := (paid_api_call τ st1 "verify" a c (metadataOf m) 30).2 with hst2
  have P3 := discover_state τ st2 5
  have E3 := discover_sameEnvLog τ st2 5
  have E12 := sameEnvLog_trans E1 E2
  have E123 := sameEnvLog_trans E12 E3
  have hsig1 : st1.sigCalls = st.sigCalls := P1.2.1
  have hset1 : st1.settlePosts = st.settlePosts := by
    rw [P1.2.2, settleBump_create, Nat.add_zero]
  have hsig2 : st2.sigCalls = st.sigCalls := P2.2.1.trans hsig1
  have hset2 : st2.settlePosts = st.settlePosts := by
    rw [P2.2.2, settleBump_verify, Nat.add_zero, hset1]
  have hsig3 : (discover_facilitator τ st2 5).2.sigCalls = st.sigCalls :=
    P3.2.1.trans hsig2
  have hset3 : (discover_facilitator τ st2 5).2.settlePosts = st.settlePosts :=
    P3.2.2.1.trans hset2
  simp only [create_payment_session]
  rw [← hst1, ← hst2]
  split
  · split
    · split
      · exact ⟨E12, hsig2, hset2⟩
      · split
        · exact ⟨E12, hsig2, hset2⟩
        · exact ⟨E12, hsig2, hset2⟩
    · exact ⟨E12, hsig2, hset2⟩
  · split
    · exact ⟨E123, hsig3, hset3⟩
    · exact ⟨E1, hsig1, hset1⟩

/-- The create stage's recorded result always carries a status code (the
404-promoted substitute starts with one, the exception handler writes the
`{status_code: 0, error}` sentinel, and the diagnostics decorations of the
400 branch leave the key alone). -/
theorem session_recover_hasStatus (τ : Transport) (st : AgentState)
    (a : Int) (c : String) (m : Option String) :
    hasStatus (recoverRes (create_payment_session τ st a c m).1) := by
  have S1 := paid_shape τ st "create_payment" a c (metadataOf m) 30
  set st1 := (paid_api_call τ st "create_payment" a c (metadataOf m) 30).2 with hst1
  have S2 := paid_shape τ st1 "verify" a c (metadataOf m) 30
  simp only [create_payment_session]
  rw [← hst1]
  split
  · split
    · split
      · exact rfl
      · split
        · exact rfl
        · simp only [recoverRes, hasStatus, dGet]
          rfl
    · exact S2.1
  · split
    · exact hasStatus_dSetIn_diag _ _ _ (hasStatus_dSetIn_diag _ _ _
        (hasStatus_dSetDefault_diag _ _ S1.1))
    · exact S1.1

/-- `verifyPhase` preserves the environment attributes, targets only the
session base URL, and never POSTs the settle endpoint. -/
theorem verifyPhase_state (τ : Transport) (cfg : Config) (st : AgentState)
    (a : Int) (c : String) (m : Option String) (t : Nat) (cr : Dict) :
    sameEnvLog st (verifyPhase τ cfg st a c m t cr).2 ∧
    (verifyPhase τ cfg st a c m t cr).2.settlePosts = st.settlePosts := by
  have P1 := paid_state τ st "verify" a c (metadataOf m) t
  have E1 := paid_sameEnvLog τ st "verify" a c (metadataOf m) t
  set st1 := (paid_api_call τ st "verify" a c (metadataOf m) t).2 with hst1
  have P2 := sig_state τ cfg st1 a c m
  have E2 := sig_sameEnvLog τ cfg st1 a c m
  have hset1 : st1.settlePosts = st.settlePosts := by
    rw [P1.2.2, settleBump_verify, Nat.add_zero]
  have hset2 : (verify_with_signature τ cfg st1 a c m).2.settlePosts =
      st.settlePosts := P2.2.2.1.trans hset1
  simp only [verifyPhase]
  rw [← hst1]
  split
  · exact ⟨E1, hset1⟩
  · split
    · split
      · split
        · exact ⟨sameEnvLog_trans E1 E2, hset2⟩
        · exact ⟨sameEnvLog_trans E1 E2, hset2⟩
      · exact ⟨E1, hset1⟩
    · exact ⟨sameEnvLog_refl st, rfl⟩

/-- The verify stage's recorded result always carries a status code. -/
theorem verifyPhase_hasStatus (τ : Transport) (cfg : Config) (st : AgentState)
    (a : Int) (c : String) (m : Option String) (t : Nat) (cr : Dict) :
    hasStatus (verifyPhase τ cfg st a c m t cr).1 := by
  have S1 := paid_shape τ st "verify" a c (metadataOf m) t
  set st1 := (paid_api_call τ st "verify" a c (metadataOf m) t).2 with hst1
  have S2 := sig_shape τ cfg st1 a c m
  simp only [verifyPhase]
  rw [← hst1]
  split
  · exact S1.1
  · split
    · split
      · split
        · exact S2.1
        · exact hasStatus_dSetIn_diag _ _ _ (hasStatus_dSetIn_diag _ _ _
            (hasStatus_dSetDefault_diag _ _ S1.1))
      · exact hasStatus_dSetIn_diag _ _ _ (hasStatus_dSetDefault_diag _ _ S1.1)
    · rfl

/-- `settlePhase` preserves the environment attributes, targets only the
session base URL, and never invokes the signature fallback. -/
theorem settlePhase_state (τ : Transport) (st : AgentState)
    (a : Int) (c : String) (m : Option String) (t : Nat) (vr : Dict) :
    sameEnvLog st (settlePhase τ st a c m t vr).2 ∧
    (settlePhase τ st a c m t vr).2.sigCalls = st.sigCalls := by
  have P1 := paid_state τ st "settle" a c (metadataOf m) t
  have E1 := paid_sameEnvLog τ st "settle" a c (metadataOf m) t
  simp only [settlePhase]
  split
  · exact ⟨E1, P1.2.1⟩
  · split
    · exact ⟨E1, P1.2.1⟩
    · exact ⟨sameEnvLog_refl st, rfl⟩

/-- The settle stage's recorded result always carries a status code. -/
theorem settlePhase_hasStatus (τ : Transport) (st : AgentState)
    (a : Int) (c : String) (m : Option String) (t : Nat) (vr : Dict) :
    hasStatus (settlePhase τ st a c m t vr).1 := by
  have S1 := paid_shape τ st "settle" a c (metadataOf m) t
  simp only [settlePhase]
  split
  · exact S1.1
  · split
    · exact hasStatus_dSetIn_diag _ _ _ (hasStatus_dSetDefault_diag _ _ S1.1)
    · rfl

/-- The skip branch of the settle stage: a verify status outside `[200,300)`
and outside `{400, 404}` produces exactly the skip sentinel and leaves the
state untouched (no HTTP request at all). -/
theorem settlePhase_skip (τ : Transport) (st : AgentState)
    (a : Int) (c : String) (m : Option String) (t : Nat) (vr : Dict)
    (h1 : ¬ is2xx (statusOf vr)) (h2 : statusOf vr ≠ 400)
    (h3 : statusOf vr ≠ 404) :
    settlePhase τ st a c m t vr =
      ([("status_code", .int 0),
        ("error", .str "verify failed; skipping settle")], st) := by
  simp only [settlePhase]
  rw [if_neg h1, if_neg (by simp [h2, h3])]

/-- The last-resort branch of the settle stage: a verify status of 400 or
404 still POSTs the settle endpoint once and decorates its result with the
failed verify response under diagnostics. -/
theorem settlePhase_fallback (τ : Transport) (st : AgentState)
    (a : Int) (c : String) (m : Option String) (t : Nat) (vr : Dict)
    (h : statusOf vr = 400 ∨ statusOf vr = 404) :
    settlePhase τ st a c m t vr =
      (dSetIn (dSetDefault (paid_api_call τ st "settle" a c (metadataOf m) t).1
          "diagnostics" (.obj []))
        "diagnostics" "verify_response" (.obj vr),
       (paid_api_call τ st "settle" a c (metadataOf m) t).2) := by
  have h1 : ¬ is2xx (statusOf vr) := by
    rcases h with h | h <;> rw [h] <;> decide
  simp only [settlePhase]
  rw [if_neg h1, if_pos h]

/-- A run is exactly its three stage results and final state. -/
theorem flow_eq (τ : Transport) (cfg : Config) (st : AgentState) (a : Int)
    (c : String) (m : Option String) (t : Nat) :
    complete_payment_flow τ cfg st a c m t =
      ([("create", .obj (flowCreateD τ st a c m)),
        ("verify", .obj (flowVerifyD τ cfg st a c m t)),
        ("settle", .obj (flowSettleD τ cfg st a c m t))],
       afterSettle τ cfg st a c m t) := rfl

/-- A whole run preserves the environment attributes and only ever targets
its session base URL. -/
theorem flow_state (τ : Transport) (cfg : Config) (st : AgentState) (a : Int)
    (c : String) (m : Option String) (t : Nat) :
    sameEnvLog st (complete_payment_flow τ cfg st a c m t).2 := by
  rw [flow_eq]
  exact sameEnvLog_trans
    (sameEnvLog_trans (session_state τ st a c m).1
      (verifyPhase_state τ cfg (afterCreate τ st a c m) a c m t
        (flowCreateD τ st a c m)).1)
    (settlePhase_state τ (afterVerify τ cfg st a c m t) a c m t
      (flowVerifyD τ cfg st a c m t)).1

/-- The request body depends only on the preserved attributes, so any two
states related by `corePreserved` send the same payload. -/
theorem paidBody_congr {st st' : AgentState} (h : corePreserved st st')
    (a : Int) (c : String) (meta : Option JValue) :
    paidBody st' a c meta = paidBody st a c meta := by
  unfold paidBody
  rw [h.2.2.1, h.2.2.2]

/-- A 2xx `paid_api_call` status can only come from an actual HTTP
response with that literal status. -/
theorem paid_2xx_resp (τ : Transport) (st : AgentState) (path : String)
    (a : Int) (c : String) (meta : Option JValue) (t : Nat)
    (h : is2xx (statusOf (paid_api_call τ st path a c meta t).1)) :
    ∃ s j tx hs, τ st.callCount = .resp s j tx hs ∧
      statusOf (paid_api_call τ st path a c meta t).1 = s := by
  cases hτ : τ st.callCount with
  | exn e =>
    rw [paid_exn τ st path a c meta t e hτ] at h
    have h0 : statusOf [("status_code", JValue.int 0), ("error", JValue.str e)] = 0 := rfl
    rw [h0] at h
    exact absurd h (by decide)
  | resp s j tx hs =>
    exact ⟨s, j, tx, hs, rfl, paid_statusOf τ st path a c meta t s j tx hs hτ⟩

/-- C1: for every input (amount, currency, optional memo) — and indeed any
transport behaviour, configuration and starting state — the total function
`complete_payment_flow` returns a mapping with all three stage keys
`create`, `verify`, `settle`, each holding a result object that contains a
`status_code` field; internal failures are encoded as result values
(`{status_code: 0, error}`), never raised past the boundary. -/
theorem C1_flow_total_and_wellformed (τ : Transport) (cfg : Config)
    (st : AgentState) (a : Int) (c : String) (m : Option String) (t : Nat) :
    ∃ dc dv ds : Dict,
      dGet (complete_payment_flow τ cfg st a c m t).1 "create" = some (.obj dc) ∧
      dGet (complete_payment_flow τ cfg st a c m t).1 "verify" = some (.obj dv) ∧
      dGet (complete_payment_flow τ cfg st a c m t).1 "settle" = some (.obj ds) ∧
      hasStatus dc ∧ hasStatus dv ∧ hasStatus ds := by
  rw [flow_eq]
  refine ⟨flowCreateD τ st a c m, flowVerifyD τ cfg st a c m t,
    flowSettleD τ cfg st a c m t, rfl, rfl, rfl, ?_, ?_, ?_⟩
  · exact session_recover_hasStatus τ st a c m
  · exact verifyPhase_hasStatus τ cfg (afterCreate τ st a c m) a c m t
      (flowCreateD τ st a c m)
  · exact settlePhase_hasStatus τ (afterVerify τ cfg st a c m t) a c m t
      (flowVerifyD τ cfg st a c m t)

/-- C8: `_build_eip712_intent` is a pure function (its Lean embedding takes
no transport argument at all); for every wallet state, configuration,
amount, currency and memo, the returned structured intent carries
`primaryType = "Payment"` and exactly the fixed domain constants
`name = "x402 Payment"`, `version = "1"`, `chainId = 1`,
`verifyingContract` = the all-zero address. -/
theorem C8_intent_fixed_domain (cfg : Config) (st : AgentState) (a : Int)
    (c : String) (m : Option String) :
    jGetKey (build_eip712_intent cfg st a c m) "primaryType" =
      some (.str "Payment") ∧
    jGetKey (build_eip712_intent cfg st a c m) "domain" =
      some (.obj [("name", .str "x402 Payment"), ("version", .str "1"),
                  ("chainId", .int 1),
                  ("verifyingContract",
                   .str "0x0000000000000000000000000000000000000000")]) :=
  ⟨rfl, rfl⟩

/-- C9: decoding the `X-PAYMENT-RESPONSE` header value returns the parsed
JSON value whenever the parse (an oracle for `json.loads`) succeeds, and
otherwise falls back to a mapping carrying the raw value under
`transaction`. -/
theorem C9_decode_header (jsonLoads : String → Option JValue) (h : String) :
    (∀ v, jsonLoads h = some v →
      decode_x_payment_response jsonLoads h = v) ∧
    (jsonLoads h = none →
      decode_x_payment_response jsonLoads h =
        .obj [("transaction", .str h)]) := by
  constructor
  · intro v hv
    unfold decode_x_payment_response
    rw [hv]
  · intro hv
    unfold decode_x_payment_response
    rw [hv]

/-- C7: when the signing capability is absent, or present but failing,
`_sign_eip712` returns `None` rather than raising; and whenever the
signature is absent, `verify_with_signature` still issues its single POST
to `/verify` with the body's `signature` field equal to JSON null, and
still returns a result object with a status code (the flow proceeds). -/
theorem C7_signing_degrades (τ : Transport) (cfg : Config) (st : AgentState)
    (a : Int) (c : String) (m : Option String) :
    (cfg.account = none →
      sign_eip712 cfg st (build_eip712_intent cfg st a c m) = none) ∧
    (∀ f e, cfg.account = some f →
      f (build_eip712_intent cfg st a c m)
        (normalizeKey st.walletPrivateKey) = .error e →
      sign_eip712 cfg st (build_eip712_intent cfg st a c m) = none) ∧
    (sign_eip712 cfg st (build_eip712_intent cfg st a c m) = none →
      jGetKey (sigVerifyBody cfg st a c m) "signature" = some .null ∧
      (verify_with_signature τ cfg st a c m).2.log =
        st.log ++ [⟨"POST", rstripSlash st.facilitatorUrl ++ "/verify",
          some (sigVerifyBody cfg st a c m), 30⟩] ∧
      hasStatus (verify_with_signature τ cfg st a c m).1) := by
  refine ⟨?_, ?_, ?_⟩
  · intro h
    unfold sign_eip712
    rw [h]
  · intro f e hf he
    unfold sign_eip712
    rw [hf]
    dsimp only
    rw [he]
  · intro hs
    refine ⟨?_, (sig_state τ cfg st a c m).2.2.2, (sig_shape τ cfg st a c m).1⟩
    unfold sigVerifyBody jGetKey
    simp only [hs, dGet]
    rfl

/-- C9 witness: an unparseable header value decodes to the raw-value
mapping. -/
theorem C9_witness :
    decode_x_payment_response (fun _ => none) "opaque-ref" =
      .obj [("transaction", .str "opaque-ref")] :=
  (C9_decode_header (fun _ => none) "opaque-ref").2 rfl

/-- C7 witness: with no signing capability configured, the signature is
absent and the fallback body carries `signature: null`. -/
theorem C7_witness :
    sign_eip712 cfgPlain stBase (build_eip712_intent cfgPlain stBase 1 "USD" none) = none ∧
    jGetKey (sigVerifyBody cfgPlain stBase 1 "USD" none) "signature" = some .null := by
  have h := C7_signing_degrades τdown cfgPlain stBase 1 "USD" none
  have hn := h.1 rfl
  exact ⟨hn, (h.2.2 hn).1⟩

/-- C6: through the client layer — `paid_api_call` and the standalone
tool's raw create/verify calls — a result's `status_code` is `0` exactly
when the corresponding call failed at the transport layer, provided the
transport only ever reports genuine (non-zero) HTTP statuses; an HTTP
response, 4xx/5xx included, is reported with its literal status. -/
theorem C6_zero_iff_transport_failure (τ : Transport) (st : AgentState)
    (path : String) (a : Int) (c : String) (meta : Option JValue) (t : Nat)
    (tcfg : ToolConfig) (fu : String) (a2 : Int) (c2 : String)
    (m2 n2 : Option String) :
    ((∀ s j tx hs, τ st.callCount = .resp s j tx hs → s ≠ 0) →
      (statusOf (paid_api_call τ st path a c meta t).1 = 0 ↔
        ∃ e, τ st.callCount = .exn e)) ∧
    ((∀ n s j tx hs, τ n = .resp s j tx hs → s ≠ 0) →
      (statusOf (x402_payment_tool τ tcfg fu a2 c2 m2 n2) = 0 ↔
        ((∃ e, τ 1 = .exn e) ∨
          ((∃ j tx hs, τ 1 = .resp 404 j tx hs) ∧ (∃ e, τ 2 = .exn e))))) := by
  constructor
  · intro hnz
    cases hτ : τ st.callCount with
    | exn e =>
      rw [paid_exn τ st path a c meta t e hτ]
      exact ⟨fun _ => ⟨e, rfl⟩, fun _ => rfl⟩
    | resp s j tx hs =>
      rw [paid_statusOf τ st path a c meta t s j tx hs hτ]
      refine ⟨fun h => absurd h (hnz s j tx hs hτ), ?_⟩
      rintro ⟨e, he⟩
      exact HttpOutcome.noConfusion he
  · intro hnz
    simp only [x402_payment_tool]
    cases h1 : τ 1 with
    | exn e =>
      exact ⟨fun _ => Or.inl ⟨e, rfl⟩, fun _ => rfl⟩
    | resp s j tx hs =>
      have hs0 : s ≠ 0 := hnz 1 s j tx hs h1
      by_cases h404 : s = 404
      · subst h404
        dsimp only
        rw [if_pos rfl]
        cases h2 : τ 2 with
        | exn e2 =>
          exact ⟨fun _ => Or.inr ⟨⟨j, tx, hs, rfl⟩, ⟨e2, rfl⟩⟩, fun _ => rfl⟩
        | resp s2 j2 tx2 hs2 =>
          have hs20 : s2 ≠ 0 := hnz 2 s2 j2 tx2 hs2 h2
          have hst : statusOf [("status_code", JValue.int s2),
              ("body", jsonOr j2 tx2), ("headers", headersJ hs2)] = s2 := rfl
          rw [hst]
          refine ⟨fun h => absurd h hs20, ?_⟩
          rintro (⟨e, he⟩ | ⟨⟨j', tx', hs', hr⟩, ⟨e2', he2⟩⟩)
          · exact HttpOutcome.noConfusion he
          · exact HttpOutcome.noConfusion he2
      · dsimp only
        rw [if_neg h404]
        have hst : statusOf [("status_code", JValue.int s),
            ("body", jsonOr j tx), ("headers", headersJ hs)] = s := rfl
        rw [hst]
        refine ⟨fun h => absurd h hs0, ?_⟩
        rintro (⟨e, he⟩ | ⟨⟨j', tx', hs', hr⟩, _⟩)
        · exact HttpOutcome.noConfusion he
        · injection hr with hr1
          exact absurd hr1 h404

/-- C6 witness: on a transport where every call raises, both the client
layer and the tool report the `status_code = 0` sentinel. -/
theorem C6_witness :
    statusOf (paid_api_call τdown stBase "create_payment" 1 "USD" none 30).1 = 0 ∧
    statusOf (x402_payment_tool τdown ⟨"http://127.0.0.1:8000", none⟩
      "http://f" 1 "USD" none none) = 0 := by
  have h := C6_zero_iff_transport_failure τdown stBase "create_payment" 1 "USD"
    none 30 ⟨"http://127.0.0.1:8000", none⟩ "http://f" 1 "USD" none none
  refine ⟨(h.1 ?_).mpr ⟨"connection refused", rfl⟩,
    (h.2 ?_).mpr (Or.inl ⟨"connection refused", rfl⟩)⟩
  · intro s j tx hs hr
    simp [τdown] at hr
  · intro n s j tx hs hr
    simp [τdown] at hr

/-- C3: whenever the recorded verify stage's status is neither 2xx nor 400
nor 404, the settle stage is exactly the skip sentinel
`{status_code: 0, error: "verify failed; skipping settle"}`, no settle POST
is counted, and the settle phase issues no request at all. -/
theorem C3_settle_skipped (τ : Transport) (cfg : Config) (st : AgentState)
    (a : Int) (c : String) (m : Option String) (t : Nat)
    (h1 : ¬ is2xx (statusOf (flowVerifyD τ cfg st a c m t)))
    (h2 : statusOf (flowVerifyD τ cfg st a c m t) ≠ 400)
    (h3 : statusOf (flowVerifyD τ cfg st a c m t) ≠ 404) :
    dGet (complete_payment_flow τ cfg st a c m t).1 "settle" =
      some (.obj [("status_code", .int 0),
                  ("error", .str "verify failed; skipping settle")]) ∧
    (complete_payment_flow τ cfg st a c m t).2.settlePosts = st.settlePosts ∧
    (complete_payment_flow τ cfg st a c m t).2.log =
      (afterVerify τ cfg st a c m t).log := by
  have hs := settlePhase_skip τ (afterVerify τ cfg st a c m t) a c m t
    (flowVerifyD τ cfg st a c m t) h1 h2 h3
  rw [flow_eq]
  refine ⟨?_, ?_, ?_⟩
  · unfold flowSettleD
    rw [hs]
    rfl
  · unfold afterSettle
    rw [hs]
    dsimp only
    unfold afterVerify
    rw [(verifyPhase_state τ cfg (afterCreate τ st a c m) a c m t
      (flowCreateD τ st a c m)).2]
    exact (session_state τ st a c m).2.2
  · unfold afterSettle
    rw [hs]

/-- C10: a recorded verify stage status of 400 or 404 does not skip settle:
exactly one settle POST is still issued, and its recorded result carries
the failed verify response under `diagnostics.verify_response` — so it is
not the skip sentinel. -/
theorem C10_settle_attempted_on_400_404 (τ : Transport) (cfg : Config)
    (st : AgentState) (a : Int) (c : String) (m : Option String) (t : Nat)
    (h : statusOf (flowVerifyD τ cfg st a c m t) = 400 ∨
         statusOf (flowVerifyD τ cfg st a c m t) = 404) :
    (complete_payment_flow τ cfg st a c m t).2.settlePosts = st.settlePosts + 1 ∧
    ∃ ds : Dict,
      dGet (complete_payment_flow τ cfg st a c m t).1 "settle" = some (.obj ds) ∧
      dGet2 ds "diagnostics" "verify_response" =
        some (.obj (flowVerifyD τ cfg st a c m t)) ∧
      ds ≠ [("status_code", .int 0),
            ("error", .str "verify failed; skipping settle")] := by
  have hf := settlePhase_fallback τ (afterVerify τ cfg st a c m t) a c m t
    (flowVerifyD τ cfg st a c m t) h
  have hpaid := paid_shape τ (afterVerify τ cfg st a c m t) "settle" a c
    (metadataOf m) t
  have hdd := dSetDefault_diag_obj _ hpaid.2
  have hds := dGet2_dSetIn_self _ "diagnostics" "verify_response"
    (.obj (flowVerifyD τ cfg st a c m t)) hdd
  have hstage : dGet2 (flowSettleD τ cfg st a c m t) "diagnostics"
      "verify_response" = some (.obj (flowVerifyD τ cfg st a c m t)) := by
    unfold flowSettleD
    rw [hf]
    exact hds
  rw [flow_eq]
  refine ⟨?_, flowSettleD τ cfg st a c m t, rfl, hstage, ?_⟩
  · unfold afterSettle
    rw [hf]
    dsimp only
    rw [(paid_state τ (afterVerify τ cfg st a c m t) "settle" a c
      (metadataOf m) t).2.2, settleBump_settle]
    unfold afterVerify
    rw [(verifyPhase_state τ cfg (afterCreate τ st a c m) a c m t
      (flowCreateD τ st a c m)).2]
    have hses : (afterCreate τ st a c m).settlePosts = st.settlePosts :=
      (session_state τ st a c m).2.2
    rw [hses]
  · intro heq
    rw [heq] at hstage
    simp [dGet2, dGet] at hstage

/-- C3 witness: with a 500 verify after a 200 create, the settle stage is
the skip sentinel. -/
theorem C3_witness :
    statusOf (flowVerifyD τskip cfgPlain stBase 1 "USD" none 30) = 500 ∧
    dGet (complete_payment_flow τskip cfgPlain stBase 1 "USD" none 30).1
        "settle" =
      some (.obj [("status_code", .int 0),
                  ("error", .str "verify failed; skipping settle")]) :=
  ⟨by decide, (C3_settle_skipped τskip cfgPlain stBase 1 "USD" none 30
    (by decide) (by decide) (by decide)).1⟩

/-- C10 witness: a 404 verify still issues exactly one settle POST. -/
theorem C10_witness :
    statusOf (flowVerifyD τc10 cfgPlain stBase 1 "USD" none 30) = 404 ∧
    (complete_payment_flow τc10 cfgPlain stBase 1 "USD" none 30).2.settlePosts =
      stBase.settlePosts + 1 :=
  ⟨by decide, (C10_settle_attempted_on_400_404 τc10 cfgPlain stBase 1 "USD"
    none 30 (by decide)).1⟩

/-- The fallback branch of the verify phase, as one equation: when the
create stage came back 400/404 and the plain verify is not 2xx, the
signature attempt runs and either supersedes the verify result (2xx) or is
attached to it as diagnostics. -/
theorem verifyPhase_fallback (τ : Transport) (cfg : Config) (st : AgentState)
    (a : Int) (c : String) (m : Option String) (t : Nat) (cr : Dict)
    (h1 : statusOf cr = 400 ∨ statusOf cr = 404)
    (h2 : ¬ is2xx (statusOf (paid_api_call τ st "verify" a c (metadataOf m) t).1)) :
    verifyPhase τ cfg st a c m t cr =
      ((if is2xx (statusOf (verify_with_signature τ cfg
            (paid_api_call τ st "verify" a c (metadataOf m) t).2 a c m).1)
        then (verify_with_signature τ cfg
            (paid_api_call τ st "verify" a c (metadataOf m) t).2 a c m).1
        else dSetIn (dSetIn (dSetDefault
            (paid_api_call τ st "verify" a c (metadataOf m) t).1
            "diagnostics" (.obj []))
          "diagnostics" "create_response" (.obj cr))
          "diagnostics" "signature_attempt"
          (.obj (verify_with_signature τ cfg
            (paid_api_call τ st "verify" a c (metadataOf m) t).2 a c m).1)),
       (verify_with_signature τ cfg
          (paid_api_call τ st "verify" a c (metadataOf m) t).2 a c m).2) := by
  have hn2 : ¬ is2xx (statusOf cr) := by
    rcases h1 with h | h <;> rw [h] <;> decide
  simp only [verifyPhase]
  rw [if_neg hn2, if_pos h1, if_pos h2]
  split <;> rfl

/-- C2 counterexample: a run whose create stage succeeded (200), whose
verify stage failed with status 400, and whose signing capability is
configured and functional — yet the signature-based verify fallback is
never invoked (the instrumentation counter stays 0): the fallback only
exists in the branch where create itself returned 400/404. -/
theorem C2_counterexample :
    statusOf (flowCreateD τc2 stWallet 1 "USD" none) = 200 ∧
    statusOf (flowVerifyD τc2 cfgSign stWallet 1 "USD" none 30) = 400 ∧
    cfgSign.account.isSome = true ∧
    sign_eip712 cfgSign stWallet
      (build_eip712_intent cfgSign stWallet 1 "USD" none) = some "deadbeef" ∧
    (complete_payment_flow τc2 cfgSign stWallet 1 "USD" none 30).2.sigCalls = 0 :=
  ⟨by decide, by decide, rfl, rfl, by decide⟩

/-- C2 (amended): in a run whose create stage came back 400/404 and whose
plain fallback verify is not 2xx, the signature-based verify fallback is
invoked exactly once; its 2xx result supersedes the verify stage result,
and otherwise the attempt appears under the verify result's
`diagnostics.signature_attempt` with the verify stage keeping the plain
attempt's status. -/
theorem C2_amended_sig_fallback (τ : Transport) (cfg : Config)
    (st : AgentState) (a : Int) (c : String) (m : Option String) (t : Nat)
    (h1 : statusOf (flowCreateD τ st a c m) = 400 ∨
          statusOf (flowCreateD τ st a c m) = 404)
    (h2 : ¬ is2xx (statusOf (fallbackVerify τ st a c m t).1)) :
    (complete_payment_flow τ cfg st a c m t).2.sigCalls = st.sigCalls + 1 ∧
    (is2xx (statusOf (fallbackSig τ cfg st a c m t).1) →
      flowVerifyD τ cfg st a c m t = (fallbackSig τ cfg st a c m t).1) ∧
    (¬ is2xx (statusOf (fallbackSig τ cfg st a c m t).1) →
      dGet2 (flowVerifyD τ cfg st a c m t) "diagnostics" "signature_attempt" =
        some (.obj (fallbackSig τ cfg st a c m t).1) ∧
      statusOf (flowVerifyD τ cfg st a c m t) =
        statusOf (fallbackVerify τ st a c m t).1) := by
  unfold fallbackVerify at h2
  unfold fallbackSig fallbackVerify
  have hv := verifyPhase_fallback τ cfg (afterCreate τ st a c m) a c m t
    (flowCreateD τ st a c m) h1 h2
  refine ⟨?_, ?_, ?_⟩
  · rw [flow_eq]
    dsimp only
    unfold afterSettle
    rw [(settlePhase_state τ (afterVerify τ cfg st a c m t) a c m t
      (flowVerifyD τ cfg st a c m t)).2]
    have hav : (afterVerify τ cfg st a c m t).sigCalls =
        (verify_with_signature τ cfg
          (paid_api_call τ (afterCreate τ st a c m) "verify" a c
            (metadataOf m) t).2 a c m).2.sigCalls := by
      unfold afterVerify
      rw [hv]
    rw [hav, (sig_state τ cfg (paid_api_call τ (afterCreate τ st a c m)
      "verify" a c (metadataOf m) t).2 a c m).2.1,
      (paid_state τ (afterCreate τ st a c m) "verify" a c
        (metadataOf m) t).2.1]
    have hses : (afterCreate τ st a c m).sigCalls = st.sigCalls :=
      (session_state τ st a c m).2.1
    rw [hses]
  · intro h3
    unfold flowVerifyD
    rw [hv]
    dsimp only
    rw [if_pos h3]
  · intro h3
    have hpaid := paid_shape τ (afterCreate τ st a c m) "verify" a c
      (metadataOf m) t
    have hdd := dSetDefault_diag_obj _ hpaid.2
    have hd2 := dGet_dSetIn_self_obj _ "diagnostics" "create_response"
      (.obj (flowCreateD τ st a c m)) hdd
    have hds := dGet2_dSetIn_self _ "diagnostics" "signature_attempt"
      (.obj (verify_with_signature τ cfg
        (paid_api_call τ (afterCreate τ st a c m) "verify" a c
          (metadataOf m) t).2 a c m).1) hd2
    have hflow : flowVerifyD τ cfg st a c m t =
        dSetIn (dSetIn (dSetDefault
            (paid_api_call τ (afterCreate τ st a c m) "verify" a c
              (metadataOf m) t).1 "diagnostics" (.obj []))
          "diagnostics" "create_response" (.obj (flowCreateD τ st a c m)))
          "diagnostics" "signature_attempt"
          (.obj (verify_with_signature τ cfg
            (paid_api_call τ (afterCreate τ st a c m) "verify" a c
              (metadataOf m) t).2 a c m).1) := by
      unfold flowVerifyD
      rw [hv]
      dsimp only
      rw [if_neg h3]
    rw [hflow]
    exact ⟨hds, by
      rw [statusOf_dSetIn_diag, statusOf_dSetIn_diag,
        dGet_dSetDefault_diag_status]⟩

/-- C2 witness: with a 404 create and a 404 plain verify, the signature
fallback runs exactly once. -/
theorem C2_witness :
    statusOf (flowCreateD τ404 stWallet 1 "USD" none) = 404 ∧
    (complete_payment_flow τ404 cfgSign stWallet 1 "USD" none 30).2.sigCalls =
      stWallet.sigCalls + 1 :=
  ⟨by decide, (C2_amended_sig_fallback τ404 cfgSign stWallet 1 "USD" none 30
    (by decide) (by decide)).1⟩

/-- C4 counterexample: the facilitator returns 404 for create and 2xx for
the fallback verify, but because the verify body is a non-object JSON
value, the Python `.get` chain raises `AttributeError`, so the flow's
create stage is the `{status_code: 0, error}` sentinel — not a
`verified-as-create` result with the verify status, as the claim states
for every such run. -/
theorem C4_counterexample :
    (∃ j tx hs, τc4 0 = .resp 404 j tx hs) ∧
    (∃ j tx hs s, τc4 2 = .resp s j tx hs ∧ is2xx s) ∧
    (∃ e, (create_payment_session τc4 stBase 1 "USD" none).1 = .error e) ∧
    statusOf (flowCreateD τc4 stBase 1 "USD" none) = 0 ∧
    (dGet2 (flowCreateD τc4 stBase 1 "USD" none) "payload" "status").isNone
      = true :=
  ⟨⟨some (.obj [("err", .str "nf")]), "nf", [], rfl⟩,
   ⟨some (.str "ok"), "", [], 200, rfl, by decide⟩,
   ⟨"AttributeError: object has no attribute get", rfl⟩,
   by decide, by decide⟩

/-- C4 (amended): when create returns 404, the orchestrator POSTs `/verify`
with the same payload (the body only depends on preserved attributes), and
if that verify returns 2xx *and its JSON body is an object (or the
text-fallback wrapper)*, the reported create stage carries the verify
response's literal status and a payload whose `status` field is
`"verified-as-create"`; a non-object 2xx body instead raises inside the
session and the create stage degrades to the `{status_code: 0, error}`
sentinel. -/
theorem C4_amended_create_404 (τ : Transport) (st : AgentState) (a : Int)
    (c : String) (m : Option String)
    (h404 : statusOf (createCall τ st a c m).1 = 404)
    (h2xx : is2xx (statusOf (createFallbackVerify τ st a c m).1))
    (hobj : ∃ flds, dGet (createFallbackVerify τ st a c m).1 "payload" =
      some (.obj flds)) :
    paidBody (createCall τ st a c m).2 a c (metadataOf m) =
      paidBody st a c (metadataOf m) ∧
    (create_payment_session τ st a c m).2 = (createFallbackVerify τ st a c m).2 ∧
    statusOf (flowCreateD τ st a c m) =
      statusOf (createFallbackVerify τ st a c m).1 ∧
    dGet2 (flowCreateD τ st a c m) "payload" "status" =
      some (.str "verified-as-create") := by
  unfold createCall at h404
  unfold createFallbackVerify createCall at h2xx hobj ⊢
  obtain ⟨flds, hf⟩ := hobj
  have hgetD : (dGet (paid_api_call τ
      (paid_api_call τ st "create_payment" a c (metadataOf m) 30).2
      "verify" a c (metadataOf m) 30).1 "payload").getD (JValue.obj []) =
      .obj flds := by
    rw [hf]
    rfl
  have hcp : ∃ idv recv, create_payment_session τ st a c m =
      (Except.ok [("status_code",
          (dGet (paid_api_call τ
            (paid_api_call τ st "create_payment" a c (metadataOf m) 30).2
            "verify" a c (metadataOf m) 30).1 "status_code").getD .null),
        ("payload", .obj [("id", idv),
          ("status", .str "verified-as-create"), ("received", recv)]),
        ("headers",
          (dGet (paid_api_call τ
            (paid_api_call τ st "create_payment" a c (metadataOf m) 30).2
            "verify" a c (metadataOf m) 30).1 "headers").getD .null)],
       (paid_api_call τ
         (paid_api_call τ st "create_payment" a c (metadataOf m) 30).2
         "verify" a c (metadataOf m) 30).2) := by
    refine ⟨if jTruthy ((dGet flds "id").getD .null) = true
        then (dGet flds "id").getD .null
        else (dGet (paid_api_call τ
          (paid_api_call τ st "create_payment" a c (metadataOf m) 30).2
          "verify" a c (metadataOf m) 30).1 "payload").getD .null,
      (dGet flds "received").getD
        ((dGet (paid_api_call τ
          (paid_api_call τ st "create_payment" a c (metadataOf m) 30).2
          "verify" a c (metadataOf m) 30).1 "payload").getD .null), ?_⟩
    simp only [create_payment_session]
    rw [if_pos h404, if_pos h2xx, hgetD]
    dsimp only [pyGet]
  obtain ⟨idv, recv, hcp⟩ := hcp
  obtain ⟨s, j, tx, hs, hτ, hsv⟩ := paid_2xx_resp τ
    (paid_api_call τ st "create_payment" a c (metadataOf m) 30).2
    "verify" a c (metadataOf m) 30 h2xx
  have hsc := (paid_resp τ
    (paid_api_call τ st "create_payment" a c (metadataOf m) 30).2
    "verify" a c (metadataOf m) 30 s j tx hs hτ).1
  refine ⟨paidBody_congr (paid_state τ st "create_payment" a c
    (metadataOf m) 30).1 a c (metadataOf m), ?_, ?_, ?_⟩
  · rw [hcp]
  · unfold flowCreateD
    rw [hcp]
    dsimp only [recoverRes]
    rw [hsv]
    unfold statusOf
    rw [hsc]
    rfl
  · unfold flowCreateD
    rw [hcp]
    dsimp only [recoverRes]
    simp [dGet2, dGet]

/-- C4 witness: on an object-bodied 2xx verify after a 404 create, the
create stage is the promoted `verified-as-create` result. -/
theorem C4_witness :
    statusOf (createCall τc4w stBase 1 "USD" none).1 = 404 ∧
    dGet2 (flowCreateD τc4w stBase 1 "USD" none) "payload" "status" =
      some (.str "verified-as-create") :=
  ⟨by decide, (C4_amended_create_404 τc4w stBase 1 "USD" none (by decide)
    (by decide)
    ⟨[("id", .str "abc"), ("received", .int 5)], rfl⟩).2.2.2⟩

/-- C5: when the initial `/list` probe reports `status_code = 0` (transport
failure) or `>= 500`, initialization substitutes the configured mock base
URL; the init log is exactly the primary probe followed by the mock
re-probe (whose outcome — including a second failure — is discarded); and
every subsequent flow run keeps the mock URL (the substitution can never
repeat) and issues every new request against the mock base, never the
primary. -/
theorem C5_discovery_fallback (τ : Transport) (cfg : Config)
    (primary : String) (wpk net wa : Option String)
    (hbad : statusOf (discover_facilitator τ
        (mkInitState primary wpk net wa) 3).1 = 0 ∨
      500 ≤ statusOf (discover_facilitator τ
        (mkInitState primary wpk net wa) 3).1) :
    (initDiscovery τ cfg (mkInitState primary wpk net wa)).facilitatorUrl =
      cfg.mockFacilitatorUrl ∧
    (initDiscovery τ cfg (mkInitState primary wpk net wa)).log =
      [⟨"GET", rstripSlash (rstripSlash primary) ++ "/list", none, 3⟩,
       ⟨"GET", rstripSlash cfg.mockFacilitatorUrl ++ "/list", none, 5⟩] ∧
    ∀ a c m t,
      (complete_payment_flow τ cfg
        (initDiscovery τ cfg (mkInitState primary wpk net wa))
        a c m t).2.facilitatorUrl = cfg.mockFacilitatorUrl ∧
      ∀ r ∈ (complete_payment_flow τ cfg
          (initDiscovery τ cfg (mkInitState primary wpk net wa))
          a c m t).2.log,
        r ∈ (initDiscovery τ cfg (mkInitState primary wpk net wa)).log ∨
          sameBase cfg.mockFacilitatorUrl r := by
  set st0 := mkInitState primary wpk net wa with hst0
  have hD1 := discover_state τ st0 3
  simp only [initDiscovery]
  rw [if_pos hbad]
  set st1 := (discover_facilitator τ st0 3).2 with hst1
  set st2 : AgentState := { st1 with facilitatorUrl := cfg.mockFacilitatorUrl }
    with hst2
  have hD2 := discover_state τ st2 5
  set stI := (discover_facilitator τ st2 5).2 with hstI
  have hu : stI.facilitatorUrl = cfg.mockFacilitatorUrl := hD2.1.1.trans rfl
  refine ⟨hu, ?_, ?_⟩
  · rw [hD2.2.2.2.2]
    have h1 : st2.log = st0.log ++
        [⟨"GET", rstripSlash st0.facilitatorUrl ++ "/list", none, 3⟩] :=
      hD1.2.2.2.2
    rw [h1]
    rfl
  · intro a c m t
    have hflow := flow_state τ cfg stI a c m t
    refine ⟨hflow.1.1.trans hu, ?_⟩
    intro r hr
    rcases hflow.2 r hr with h | h
    · exact Or.inl h
    · rw [hu] at h
      exact Or.inr h

/-- C5 witness: both with a healthy mock (re-probe succeeds) and with a
fully dead network (re-probe fails too and is swallowed), initialization
ends with the mock base URL. -/
theorem C5_witness :
    (initDiscovery τc5 cfgPlain
      (mkInitState "http://facilitator.example" none none none)).facilitatorUrl
      = cfgPlain.mockFacilitatorUrl ∧
    (initDiscovery τdown cfgPlain
      (mkInitState "http://facilitator.example" none none none)).facilitatorUrl
      = cfgPlain.mockFacilitatorUrl :=
  ⟨(C5_discovery_fallback τc5 cfgPlain "http://facilitator.example"
      none none none (by decide)).1,
   (C5_discovery_fallback τdown cfgPlain "http://facilitator.example"
      none none none (by decide)).1⟩

end X402

